import Mathlib

/-!
Shallow embedding of the physics and collision core of the `platformer`
repository (src/physics/mod.rs, src/physics/collision.rs,
src/entities/mod.rs, src/entities/player.rs, src/entities/platform.rs).

Machine floats (`f32`) are modelled as rationals `ℚ`: every arithmetic
operation appearing in the embedded code (addition, subtraction,
multiplication by constants, `min`, `abs`, comparisons) is exact on the
dyadic values used throughout, so the control flow of the embedded
functions coincides with that of the source on the inputs considered.
The ambient per-frame clock (`get_frame_time()`) becomes an explicit
`dt : ℚ` parameter, as the spec itself prescribes for the model.
Rendering-only data (colors) is omitted.
-/

namespace Platformer

/-- A 2D vector (`macroquad::Vec2` restricted to the exact-arithmetic model). -/
structure Vec2 where
  x : ℚ
  y : ℚ
deriving DecidableEq, Repr

/-- Constructor `Vec2::new`. -/
def Vec2.new (x y : ℚ) : Vec2 := ⟨x, y⟩

/-- Struct `PhysicsBody` from src/entities/mod.rs. -/
structure PhysicsBody where
  position : Vec2
  velocity : Vec2
  size : Vec2
  on_ground : Bool
  mass : ℚ
deriving DecidableEq, Repr

/-- Constructor `PhysicsBody::new` (src/entities/mod.rs lines 30-38). -/
def PhysicsBody.new (x y width height : ℚ) : PhysicsBody :=
  { position := Vec2.new x y
    velocity := ⟨0, 0⟩
    size := Vec2.new width height
    on_ground := false
    mass := 1 }

/-- Method `PhysicsBody::get_bounds` (src/entities/mod.rs lines 40-47):
`(left, top, right, bottom)` as `(x, y, x+w, y+h)`. -/
def PhysicsBody.get_bounds (b : PhysicsBody) : ℚ × ℚ × ℚ × ℚ :=
  (b.position.x, b.position.y, b.position.x + b.size.x, b.position.y + b.size.y)

/-- Method `PhysicsBody::overlaps_with` (src/entities/mod.rs lines 49-54). -/
def PhysicsBody.overlaps_with (b other : PhysicsBody) : Bool :=
  let (x1, y1, x2, y2) := b.get_bounds
  let (ox1, oy1, ox2, oy2) := other.get_bounds
  decide (x1 < ox2) && decide (x2 > ox1) && decide (y1 < oy2) && decide (y2 > oy1)

/-- Enum `PlatformType` from src/entities/platform.rs (physics-irrelevant tag). -/
inductive PlatformType where
  | Ground
  | Normal
  | Breakable
  | Moving
deriving DecidableEq, Repr

/-- Struct `Platform` from src/entities/platform.rs (color omitted: rendering only). -/
structure Platform where
  body : PhysicsBody
  platform_type : PlatformType
deriving DecidableEq, Repr

/-- Constructor `Platform::new` (src/entities/platform.rs lines 21-27). -/
def Platform.new (x y width height : ℚ) : Platform :=
  { body := PhysicsBody.new x y width height
    platform_type := PlatformType.Normal }

/-- Method `Platform::get_bounds` (src/entities/platform.rs lines 45-47). -/
def Platform.get_bounds (p : Platform) : ℚ × ℚ × ℚ × ℚ :=
  p.body.get_bounds

/-- Struct `Player` from src/entities/player.rs (color omitted: rendering only). -/
structure Player where
  body : PhysicsBody
  move_speed : ℚ
  jump_force : ℚ
  max_jump_count : ℕ
  current_jump_count : ℕ
deriving DecidableEq, Repr

/-- Constructor `Player::new` (src/entities/player.rs lines 16-25). -/
def Player.new (x y : ℚ) : Player :=
  { body := PhysicsBody.new x y 32 32
    move_speed := 200
    jump_force := -400
    max_jump_count := 2
    current_jump_count := 0 }

/-- Getter `Player::position`. -/
def Player.position (p : Player) : Vec2 := p.body.position

/-- Getter `Player::size`. -/
def Player.size (p : Player) : Vec2 := p.body.size

/-- Getter `Player::velocity`. -/
def Player.velocity (p : Player) : Vec2 := p.body.velocity

/-- Setter `Player::set_velocity`. -/
def Player.set_velocity (p : Player) (velocity : Vec2) : Player :=
  { p with body := { p.body with velocity := velocity } }

/-- Setter `Player::set_position`. -/
def Player.set_position (p : Player) (position : Vec2) : Player :=
  { p with body := { p.body with position := position } }

/-- Getter `Player::is_on_ground`. -/
def Player.is_on_ground (p : Player) : Bool := p.body.on_ground

/-- Method `Player::reset_jump` (src/entities/player.rs lines 43-45). -/
def Player.reset_jump (p : Player) : Player :=
  { p with current_jump_count := 0 }

/-- Method `Player::set_on_ground` (src/entities/player.rs lines 47-52). -/
def Player.set_on_ground (p : Player) (on_ground : Bool) : Player :=
  let p := { p with body := { p.body with on_ground := on_ground } }
  if on_ground then p.reset_jump else p

/-- Method `<Player as Entity>::update` (src/entities/player.rs lines 130-138):
horizontal friction `vx *= 0.8`, then dead-zone `|vx| < 1.0 → vx = 0`. -/
def Player.update (p : Player) : Player :=
  let vx := p.body.velocity.x * (0.8 : ℚ)
  let vx := if |vx| < 1 then 0 else vx
  { p with body := { p.body with velocity := { p.body.velocity with x := vx } } }

/-- Struct `Physics` from src/physics/mod.rs. -/
structure Physics where
  gravity : ℚ
  terminal_velocity : ℚ
deriving DecidableEq, Repr

/-- Constructor `Physics::new` (src/physics/mod.rs lines 13-18). -/
def Physics.new : Physics :=
  { gravity := 980, terminal_velocity := 500 }

/-- Method `Physics::apply_gravity` (src/physics/mod.rs lines 20-35), with the
ambient frame time made an explicit `dt` parameter. -/
def Physics.apply_gravity (phys : Physics) (dt : ℚ) (player : Player) : Player :=
  if ¬ player.is_on_ground then
    let velocity := player.velocity
    let velocity := { velocity with y := velocity.y + phys.gravity * dt }
    let velocity :=
      if velocity.y > phys.terminal_velocity then
        { velocity with y := phys.terminal_velocity }
      else velocity
    player.set_velocity velocity
  else player

/-- Method `Physics::update_position` (src/physics/mod.rs lines 37-50):
`position += velocity * dt`, then `player.update()`. -/
def Physics.update_position (_phys : Physics) (dt : ℚ) (player : Player) : Player :=
  let velocity := player.velocity
  let position := player.position
  let position := { position with x := position.x + velocity.x * dt }
  let position := { position with y := position.y + velocity.y * dt }
  let player := player.set_position position
  player.update

/-- Method `Physics::rectangles_overlap` (src/physics/mod.rs lines 68-73). -/
def Physics.rectangles_overlap (_phys : Physics)
    (rect1 rect2 : ℚ × ℚ × ℚ × ℚ) : Bool :=
  let (x1, y1, x2, y2) := rect1
  let (ox1, oy1, ox2, oy2) := rect2
  decide (x1 < ox2) && decide (x2 > ox1) && decide (y1 < oy2) && decide (y2 > oy1)

/-- The player bounds tuple computed inline in `Physics::check_collision`
and `Physics::resolve_collision` (src/physics/mod.rs lines 53-58, 76-81). -/
def playerBounds (player : Player) : ℚ × ℚ × ℚ × ℚ :=
  (player.position.x, player.position.y,
   player.position.x + player.size.x, player.position.y + player.size.y)

/-- Method `Physics::resolve_collision` (src/physics/mod.rs lines 75-122). -/
def Physics.resolve_collision (_phys : Physics) (player : Player)
    (platform : Platform) : Player :=
  let (px1, py1, px2, py2) := playerBounds player
  let (plx1, ply1, plx2, ply2) := platform.get_bounds
  let overlap_x := min (px2 - plx1) (plx2 - px1)
  let overlap_y := min (py2 - ply1) (ply2 - py1)
  let position := player.position
  let velocity := player.velocity
  if overlap_x < overlap_y then
    -- Horizontal collision
    let position :=
      if px1 < plx1 then
        { position with x := plx1 - player.size.x }
      else
        { position with x := plx2 }
    let velocity := { velocity with x := 0 }
    (player.set_position position).set_velocity velocity
  else
    -- Vertical collision
    if py1 < ply1 then
      -- Player is above platform (landing)
      let position := { position with y := ply1 - player.size.y }
      let velocity := { velocity with y := 0 }
      let player := player.set_on_ground true
      (player.set_position position).set_velocity velocity
    else
      -- Player is below platform (hitting head)
      let position := { position with y := ply2 }
      let velocity := { velocity with y := 0 }
      (player.set_position position).set_velocity velocity

/-- Method `Physics::check_collision` (src/physics/mod.rs lines 52-66). -/
def Physics.check_collision (phys : Physics) (player : Player)
    (platform : Platform) : Player :=
  let player_bounds := playerBounds player
  let platform_bounds := platform.get_bounds
  if phys.rectangles_overlap player_bounds platform_bounds then
    phys.resolve_collision player platform
  else player

/-- Enum `CollisionSide` from src/physics/collision.rs. -/
inductive CollisionSide where
  | Top
  | Bottom
  | Left
  | Right
deriving DecidableEq, Repr

/-- Struct `CollisionInfo` from src/physics/collision.rs. -/
structure CollisionInfo where
  side : CollisionSide
  overlap : ℚ
  contact_point : Vec2
deriving DecidableEq, Repr

/-- Method `CollisionDetector::aabb_overlap` (src/physics/collision.rs lines 28-33). -/
def CollisionDetector.aabb_overlap (rect1 rect2 : ℚ × ℚ × ℚ × ℚ) : Bool :=
  let (x1, y1, x2, y2) := rect1
  let (ox1, oy1, ox2, oy2) := rect2
  decide (x1 < ox2) && decide (x2 > ox1) && decide (y1 < oy2) && decide (y2 > oy1)

/-- Method `CollisionDetector::get_collision_info` (src/physics/collision.rs
lines 36-75). -/
def CollisionDetector.get_collision_info (body1 body2 : PhysicsBody) :
    Option CollisionInfo :=
  let bounds1 := body1.get_bounds
  let bounds2 := body2.get_bounds
  if ¬ CollisionDetector.aabb_overlap bounds1 bounds2 then
    none
  else
    let (x1, y1, x2, y2) := bounds1
    let (ox1, oy1, ox2, oy2) := bounds2
    let overlap_x := min (x2 - ox1) (ox2 - x1)
    let overlap_y := min (y2 - oy1) (oy2 - y1)
    let sideOverlap :=
      if overlap_x < overlap_y then
        -- Horizontal collision
        if x1 < ox1 then
          (CollisionSide.Right, overlap_x)
        else
          (CollisionSide.Left, overlap_x)
      else
        -- Vertical collision
        if y1 < oy1 then
          (CollisionSide.Bottom, overlap_y)
        else
          (CollisionSide.Top, overlap_y)
    let contact_point := Vec2.new ((x1 + x2) / 2) ((y1 + y2) / 2)
    some { side := sideOverlap.1, overlap := sideOverlap.2,
           contact_point := contact_point }

/-- Method `CollisionResolver::separate_bodies` (src/physics/collision.rs
lines 162-186); `body1` is the moving body, returned corrected. -/
def CollisionResolver.separate_bodies (body1 : PhysicsBody)
    (body2 : PhysicsBody) (collision : CollisionInfo) : PhysicsBody :=
  match collision.side with
  | CollisionSide.Top =>
      { body1 with
        position := { body1.position with y := body2.position.y - body1.size.y }
        velocity := { body1.velocity with y := min body1.velocity.y 0 }
        on_ground := true }
  | CollisionSide.Bottom =>
      { body1 with
        position := { body1.position with y := body2.position.y + body2.size.y }
        velocity := { body1.velocity with y := max body1.velocity.y 0 } }
  | CollisionSide.Left =>
      { body1 with
        position := { body1.position with x := body2.position.x - body1.size.x }
        velocity := { body1.velocity with x := min body1.velocity.x 0 } }
  | CollisionSide.Right =>
      { body1 with
        position := { body1.position with x := body2.position.x + body2.size.x }
        velocity := { body1.velocity with x := max body1.velocity.x 0 } }

/-- The per-axis overlap distance formula shared by
`Physics::resolve_collision` (lines 89-90) and
`CollisionDetector::get_collision_info` (lines 48-49): X axis. -/
def overlapX (bounds1 bounds2 : ℚ × ℚ × ℚ × ℚ) : ℚ :=
  min (bounds1.2.2.1 - bounds2.1) (bounds2.2.2.1 - bounds1.1)

/-- Same overlap distance formula, Y axis. -/
def overlapY (bounds1 bounds2 : ℚ × ℚ × ℚ × ℚ) : ℚ :=
  min (bounds1.2.2.2 - bounds2.2.1) (bounds2.2.2.2 - bounds1.2.1)


/-! ## Concrete scenario data used by the testable properties -/

/-- Scenario body of spec §8: position (100, 50), size (32, 32),
velocity (0, 500). -/
def scenarioPlayer : Player := (Player.new 100 50).set_velocity (Vec2.new 0 500)

/-- Scenario platform of spec §8: position (0, 100), size (200, 20). -/
def scenarioPlatform : Platform := Platform.new 0 100 200 20

/-- The scenario body after one integration step with dt = 0.1. -/
def scenarioAfterStep : Player := Physics.new.update_position (1/10) scenarioPlayer

/-- A falling body whose top edge (y = 95) is strictly above the scenario
platform's top edge (y = 100) while overlapping it. -/
def fallingPlayer : Player := (Player.new 100 95).set_velocity (Vec2.new 0 500)

/-- A grounded body carrying a vertical velocity above the terminal
velocity. -/
def groundedFast : Player :=
  ((Player.new 0 0).set_velocity (Vec2.new 0 1000)).set_on_ground true

/-- Body A of the tie-break scenario: bounds (0, 0, 10, 10). -/
def bodyA : PhysicsBody := PhysicsBody.new 0 0 10 10

/-- Body B of the tie-break scenario: bounds (5, 5, 15, 15). -/
def bodyB : PhysicsBody := PhysicsBody.new 5 5 10 10

/-! ## Characterization of the embedded detector -/

/-- Closed form of `CollisionDetector::get_collision_info`: on overlap it
returns the side selected by the smaller-overlap axis (strict `<` prefers
horizontal, ties fall to vertical), the overlap along that axis, and the
midpoint of `body1`'s own bounds as contact point. -/
theorem get_collision_info_eq (b1 b2 : PhysicsBody) :
    CollisionDetector.get_collision_info b1 b2 =
      if CollisionDetector.aabb_overlap b1.get_bounds b2.get_bounds then
        some { side :=
                 if overlapX b1.get_bounds b2.get_bounds <
                     overlapY b1.get_bounds b2.get_bounds then
                   if b1.position.x < b2.position.x then CollisionSide.Right
                   else CollisionSide.Left
                 else
                   if b1.position.y < b2.position.y then CollisionSide.Bottom
                   else CollisionSide.Top
               overlap :=
                 if overlapX b1.get_bounds b2.get_bounds <
                     overlapY b1.get_bounds b2.get_bounds then
                   overlapX b1.get_bounds b2.get_bounds
                 else overlapY b1.get_bounds b2.get_bounds
               contact_point :=
                 Vec2.new (b1.position.x + b1.size.x / 2)
                   (b1.position.y + b1.size.y / 2) }
      else none := by
  by_cases hab : CollisionDetector.aabb_overlap b1.get_bounds b2.get_bounds
  · simp only [CollisionDetector.get_collision_info, PhysicsBody.get_bounds,
      overlapX, overlapY, hab, not_true, if_true, if_false, ite_true, ite_false,
      Bool.not_true, reduceIte]
    split_ifs <;>
      simp_all [Vec2.new, CollisionSide, PhysicsBody.get_bounds, overlapX, overlapY] <;>
      ring_nf <;> simp [mul_comm]
  · simp [CollisionDetector.get_collision_info, hab]

/-! ## Claim theorems -/

/-- C1 (counterexample): in the spec scenario the integration step does move
the body to y = 100, but the per-platform resolution does NOT snap it to
y = 68 with on_ground = true: the top-edge tie (100 = 100) fails the strict
`py1 < ply1` landing test. -/
theorem C1_counterexample :
    scenarioAfterStep.body.position.y = 100 ∧
    ¬ ((Physics.new.resolve_collision scenarioAfterStep scenarioPlatform).body.position.y = 68 ∧
       (Physics.new.resolve_collision scenarioAfterStep scenarioPlatform).body.on_ground = true) := by
  norm_num [scenarioAfterStep, scenarioPlayer, scenarioPlatform, Physics.new,
    Physics.update_position, Physics.resolve_collision, Player.new, PhysicsBody.new,
    Platform.new, Platform.get_bounds, PhysicsBody.get_bounds, playerBounds,
    Player.set_position, Player.set_velocity, Player.set_on_ground, Player.reset_jump,
    Player.update, Player.position, Player.velocity, Player.size, Vec2.new]

/-- C1 (amended): one integration step with dt = 0.1 moves the body to
y = 100 (its top edge exactly on the platform's top), and the subsequent
per-platform resolution takes the vertical non-landing branch: it snaps the
body to position.y = 120 (the platform's bottom edge), sets velocity.y = 0,
and leaves on_ground = false. -/
theorem C1_scenario_resolution :
    scenarioAfterStep.body.position.y = 100 ∧
    (Physics.new.resolve_collision scenarioAfterStep scenarioPlatform).body.position.y = 120 ∧
    (Physics.new.resolve_collision scenarioAfterStep scenarioPlatform).body.velocity.y = 0 ∧
    (Physics.new.resolve_collision scenarioAfterStep scenarioPlatform).body.on_ground = false := by
  norm_num [scenarioAfterStep, scenarioPlayer, scenarioPlatform, Physics.new,
    Physics.update_position, Physics.resolve_collision, Player.new, PhysicsBody.new,
    Platform.new, Platform.get_bounds, PhysicsBody.get_bounds, playerBounds,
    Player.set_position, Player.set_velocity, Player.set_on_ground, Player.reset_jump,
    Player.update, Player.position, Player.velocity, Player.size, Vec2.new]

/-- C3 (counterexample): a body falling (velocity.y = 500 > 0) onto the
scenario platform with the vertical overlap (20) smaller than the horizontal
one (100) is NOT snapped to T - size.y with on_ground = true when its top
edge ties with the platform's top edge. -/
theorem C3_counterexample :
    0 < scenarioAfterStep.body.velocity.y ∧
    overlapY (playerBounds scenarioAfterStep) scenarioPlatform.get_bounds <
      overlapX (playerBounds scenarioAfterStep) scenarioPlatform.get_bounds ∧
    ¬ ((Physics.new.resolve_collision scenarioAfterStep scenarioPlatform).body.position.y =
         scenarioPlatform.body.position.y - scenarioAfterStep.body.size.y ∧
       (Physics.new.resolve_collision scenarioAfterStep scenarioPlatform).body.on_ground = true) := by
  norm_num [scenarioAfterStep, scenarioPlayer, scenarioPlatform, Physics.new,
    Physics.update_position, Physics.resolve_collision, Player.new, PhysicsBody.new,
    Platform.new, Platform.get_bounds, PhysicsBody.get_bounds, playerBounds,
    Player.set_position, Player.set_velocity, Player.set_on_ground, Player.reset_jump,
    Player.update, Player.position, Player.velocity, Player.size, Vec2.new,
    overlapX, overlapY]

/-- C3 (amended): for every body falling (velocity.y > 0) onto a platform
whose top edge is at y = T, if the vertical overlap distance is smaller than
the horizontal one AND the body's top edge is strictly above the platform's
top edge, one per-platform resolution call yields position.y = T - size.y
and on_ground = true. -/
theorem C3_landing (phys : Physics) (p : Player) (plat : Platform)
    (hv : 0 < p.body.velocity.y)
    (hov : overlapY (playerBounds p) plat.get_bounds <
             overlapX (playerBounds p) plat.get_bounds)
    (htop : p.body.position.y < plat.body.position.y) :
    (phys.resolve_collision p plat).body.position.y =
        plat.body.position.y - p.body.size.y ∧
    (phys.resolve_collision p plat).body.on_ground = true := by
  simp only [overlapX, overlapY, playerBounds, Platform.get_bounds,
    PhysicsBody.get_bounds, Player.position, Player.size] at hov
  simp only [Physics.resolve_collision, playerBounds, Platform.get_bounds,
    PhysicsBody.get_bounds, Player.position, Player.size, Player.velocity,
    Player.set_position, Player.set_velocity, Player.set_on_ground,
    Player.reset_jump]
  rw [if_neg (not_lt.mpr hov.le), if_pos htop]
  simp

/-- C3 witness: the falling body at (100, 95) over the scenario platform. -/
theorem C3_landing_witness :
    (Physics.new.resolve_collision fallingPlayer scenarioPlatform).body.position.y =
        scenarioPlatform.body.position.y - fallingPlayer.body.size.y ∧
    (Physics.new.resolve_collision fallingPlayer scenarioPlatform).body.on_ground = true :=
  C3_landing Physics.new fallingPlayer scenarioPlatform
    (by norm_num [fallingPlayer, Player.new, PhysicsBody.new, Player.set_velocity, Vec2.new])
    (by norm_num [fallingPlayer, scenarioPlatform, Player.new, PhysicsBody.new,
      Platform.new, Player.set_velocity, Vec2.new, overlapX, overlapY, playerBounds,
      Platform.get_bounds, PhysicsBody.get_bounds, Player.position, Player.size])
    (by norm_num [fallingPlayer, scenarioPlatform, Player.new, PhysicsBody.new,
      Platform.new, Player.set_velocity, Vec2.new])

/-- C9: the integration step leaves velocity.y untouched, damps velocity.x
by the factor 0.8 with a dead-zone at magnitude 1, adds velocity * dt to the
position, and in particular leaves the position of a body with velocity
(0, 0) unchanged. -/
theorem C9_update_position_effects (phys : Physics) (dt : ℚ) (p : Player) :
    (phys.update_position dt p).body.velocity.y = p.body.velocity.y ∧
    (phys.update_position dt p).body.velocity.x =
      (if |p.body.velocity.x * (0.8 : ℚ)| < 1 then 0
       else p.body.velocity.x * (0.8 : ℚ)) ∧
    (phys.update_position dt p).body.position.x =
      p.body.position.x + p.body.velocity.x * dt ∧
    (phys.update_position dt p).body.position.y =
      p.body.position.y + p.body.velocity.y * dt ∧
    (p.body.velocity = Vec2.new 0 0 →
      (phys.update_position dt p).body.position = p.body.position) := by
  refine ⟨?_, ?_, ?_, ?_, ?_⟩ <;>
    simp [Physics.update_position, Player.update, Player.set_position,
      Player.position, Player.velocity, Vec2.new]
  intro h
  simp [h]

/-- C9 witness: a stationary body keeps its position across one step. -/
theorem C9_update_position_effects_witness :
    (Physics.new.update_position (1/60) (Player.new 3 4)).body.position =
      (Player.new 3 4).body.position :=
  (C9_update_position_effects Physics.new (1/60) (Player.new 3 4)).2.2.2.2
    (by norm_num [Player.new, PhysicsBody.new, Vec2.new])

/-- C10: when the player and platform bounds do not strictly overlap,
`Physics::check_collision` returns the player unchanged. -/
theorem C10_no_overlap_no_change (phys : Physics) (p : Player) (plat : Platform)
    (h : phys.rectangles_overlap (playerBounds p) plat.get_bounds = false) :
    phys.check_collision p plat = p := by
  simp [Physics.check_collision, h]

/-- C10 witness: a player far from a platform is untouched. -/
theorem C10_no_overlap_no_change_witness :
    Physics.new.check_collision (Player.new 0 0) (Platform.new 100 100 50 10) =
      Player.new 0 0 :=
  C10_no_overlap_no_change Physics.new (Player.new 0 0) (Platform.new 100 100 50 10)
    (by norm_num [Physics.rectangles_overlap, playerBounds, Player.new, PhysicsBody.new,
      Platform.new, Platform.get_bounds, PhysicsBody.get_bounds, Player.position,
      Player.size, Vec2.new])

/-- Gravity never flips the grounded flag. -/
theorem apply_gravity_on_ground_eq (phys : Physics) (dt : ℚ) (p : Player) :
    (phys.apply_gravity dt p).body.on_ground = p.body.on_ground := by
  simp only [Physics.apply_gravity, Player.is_on_ground, Player.velocity,
    Player.set_velocity]
  split_ifs <;> rfl

/-- One gravity application on an airborne body leaves velocity.y at or
below the terminal velocity. -/
theorem apply_gravity_vy_le (phys : Physics) (dt : ℚ) (p : Player)
    (h : p.body.on_ground = false) :
    (phys.apply_gravity dt p).body.velocity.y ≤ phys.terminal_velocity := by
  simp only [Physics.apply_gravity, Player.is_on_ground, Player.velocity,
    Player.set_velocity, h, Bool.false_eq_true, not_false_iff, if_true]
  split_ifs with h1
  · simp
  · simpa using not_lt.mp h1

/-- C7 (counterexample): a grounded body with velocity.y = 1000 keeps that
velocity across apply_gravity (the call is a no-op), so velocity.y exceeds
the terminal velocity 500 after the call even with positive gravity and dt. -/
theorem C7_counterexample :
    groundedFast.body.on_ground = true ∧
    0 < Physics.new.gravity ∧ 0 < (1/60 : ℚ) ∧
    (Physics.new.apply_gravity (1/60) groundedFast).body.velocity.y = 1000 ∧
    ¬ ((Physics.new.apply_gravity (1/60) groundedFast).body.velocity.y ≤
        Physics.new.terminal_velocity) := by
  norm_num [groundedFast, Player.new, PhysicsBody.new, Player.set_velocity,
    Player.set_on_ground, Player.reset_jump, Physics.new, Physics.apply_gravity,
    Player.is_on_ground, Player.velocity, Vec2.new]

/-- C7 (amended): for every airborne body (on_ground = false), after each of
any positive number of repeated apply_gravity calls (positive gravity and
dt), velocity.y is at most the terminal velocity; and for a grounded body
apply_gravity is the identity on the whole player. -/
theorem C7_gravity_clamp :
    (∀ (phys : Physics) (dt : ℚ) (p : Player) (n : ℕ),
        p.body.on_ground = false → 0 < phys.gravity → 0 < dt → 1 ≤ n →
        ((phys.apply_gravity dt)^[n] p).body.velocity.y ≤ phys.terminal_velocity) ∧
    (∀ (phys : Physics) (dt : ℚ) (p : Player),
        p.body.on_ground = true → phys.apply_gravity dt p = p) := by
  constructor
  · intro phys dt p n hg _ _ hn
    obtain ⟨m, rfl⟩ : ∃ m, n = m + 1 := ⟨n - 1, by omega⟩
    clear hn
    have hgm : ((phys.apply_gravity dt)^[m] p).body.on_ground = false := by
      induction m with
      | zero => simpa using hg
      | succ k ih =>
          rw [Function.iterate_succ_apply', apply_gravity_on_ground_eq]
          exact ih
    rw [Function.iterate_succ_apply']
    exact apply_gravity_vy_le _ _ _ hgm
  · intro phys dt p h
    simp [Physics.apply_gravity, Player.is_on_ground, h]

/-- C7 witness: one call on a fresh airborne body stays under the terminal
velocity, and the grounded fast body is returned unchanged. -/
theorem C7_gravity_clamp_witness :
    ((Physics.new.apply_gravity (1/60))^[1] (Player.new 0 0)).body.velocity.y ≤
        Physics.new.terminal_velocity ∧
    Physics.new.apply_gravity (1/60) groundedFast = groundedFast :=
  ⟨C7_gravity_clamp.1 Physics.new (1/60) (Player.new 0 0) 1 rfl
      (by norm_num [Physics.new]) (by norm_num) le_rfl,
   C7_gravity_clamp.2 Physics.new (1/60) groundedFast
      (by simp [groundedFast, Player.set_on_ground, Player.set_velocity,
        Player.reset_jump, Player.new, PhysicsBody.new])⟩

/-- C6: for well-formed rectangles, `aabb_overlap` holds iff the
intersection has strictly positive extent on both axes; rectangles whose
intersection is degenerate (edge contact or disjoint) test false; and
`PhysicsBody::overlaps_with` is the identical test on the bodies' bounds. -/
theorem C6_overlap_strict :
    (∀ x1 y1 x2 y2 ox1 oy1 ox2 oy2 : ℚ,
        x1 < x2 → y1 < y2 → ox1 < ox2 → oy1 < oy2 →
        ((CollisionDetector.aabb_overlap (x1, y1, x2, y2) (ox1, oy1, ox2, oy2) = true ↔
            max x1 ox1 < min x2 ox2 ∧ max y1 oy1 < min y2 oy2) ∧
          ((min x2 ox2 ≤ max x1 ox1 ∨ min y2 oy2 ≤ max y1 oy1) →
            CollisionDetector.aabb_overlap (x1, y1, x2, y2) (ox1, oy1, ox2, oy2) = false))) ∧
    (∀ b other : PhysicsBody,
        PhysicsBody.overlaps_with b other =
          CollisionDetector.aabb_overlap b.get_bounds other.get_bounds) := by
  constructor
  · intro x1 y1 x2 y2 ox1 oy1 ox2 oy2 hx hy hox hoy
    have hiff : CollisionDetector.aabb_overlap (x1, y1, x2, y2) (ox1, oy1, ox2, oy2) = true ↔
        max x1 ox1 < min x2 ox2 ∧ max y1 oy1 < min y2 oy2 := by
      simp only [CollisionDetector.aabb_overlap, Bool.and_eq_true, decide_eq_true_eq,
        gt_iff_lt, max_lt_iff, lt_min_iff]
      constructor
      · intro h
        exact ⟨⟨⟨hx, h.1.1.2⟩, h.1.1.1, hox⟩, ⟨hy, h.2⟩, h.1.2, hoy⟩
      · intro h
        exact ⟨⟨⟨h.1.2.1, h.1.1.2⟩, h.2.2.1⟩, h.2.1.2⟩
    refine ⟨hiff, ?_⟩
    intro hz
    rw [Bool.eq_false_iff]
    intro habs
    rcases hz with hz | hz
    · exact absurd (hiff.mp habs).1 (not_lt.mpr hz)
    · exact absurd (hiff.mp habs).2 (not_lt.mpr hz)
  · intro b other
    rfl

/-- C6 witness: rectangles sharing only the vertical edge x = 5 do not
overlap. -/
theorem C6_overlap_strict_witness :
    CollisionDetector.aabb_overlap ((0 : ℚ), 0, 5, 5) ((5 : ℚ), 0, 10, 5) = false :=
  (C6_overlap_strict.1 0 0 5 5 5 0 10 5 (by norm_num) (by norm_num) (by norm_num)
      (by norm_num)).2 (by norm_num)

/-- C5: separating the moving body along the side reported by
`get_collision_info` leaves the two bodies exactly edge-to-edge, and the
strict overlap test then reports no residual collision. -/
theorem C5_separate_round_trip (b1 b2 : PhysicsBody) (info : CollisionInfo)
    (h : CollisionDetector.get_collision_info b1 b2 = some info) :
    CollisionDetector.get_collision_info
        (CollisionResolver.separate_bodies b1 b2 info) b2 = none := by
  clear h
  have hfalse : CollisionDetector.aabb_overlap
      (CollisionResolver.separate_bodies b1 b2 info).get_bounds b2.get_bounds = false := by
    cases info with
    | mk side overlap cp =>
        cases side <;>
          simp [CollisionResolver.separate_bodies, CollisionDetector.aabb_overlap,
            PhysicsBody.get_bounds, sub_add_cancel, lt_irrefl]
  rw [get_collision_info_eq, hfalse]
  simp

/-- C5 witness: the tie-break pair, separated, no longer collides. -/
theorem C5_separate_round_trip_witness :
    CollisionDetector.get_collision_info
        (CollisionResolver.separate_bodies bodyA bodyB
          { side := CollisionSide.Bottom, overlap := 5, contact_point := Vec2.new 5 5 })
        bodyB = none :=
  C5_separate_round_trip bodyA bodyB _
    (by rw [get_collision_info_eq]
        norm_num [bodyA, bodyB, PhysicsBody.new, PhysicsBody.get_bounds, Vec2.new,
          CollisionDetector.aabb_overlap, overlapX, overlapY])

/-- Player and platform realizing the exact overlap tie (both overlaps 5). -/
def tiePlayer : Player := { Player.new 0 0 with body := bodyA }

/-- Platform of the tie scenario: bounds (5, 5, 15, 15). -/
def tiePlatform : Platform := Platform.new 5 5 10 10

/-- C4: on an exact overlap tie both the detector and the inline resolver
take the vertical branch (the horizontal branch needs strict
overlap_x < overlap_y), and on the concrete pair A = (0,0,10,10),
B = (5,5,15,15) the detector reports side Bottom with overlap 5. -/
theorem C4_tie_break :
    (∀ (b1 b2 : PhysicsBody) (info : CollisionInfo),
        CollisionDetector.get_collision_info b1 b2 = some info →
        ¬ (overlapX b1.get_bounds b2.get_bounds <
            overlapY b1.get_bounds b2.get_bounds) →
        info.side = (if b1.position.y < b2.position.y then CollisionSide.Bottom
                     else CollisionSide.Top)) ∧
    (∀ (b1 b2 : PhysicsBody) (info : CollisionInfo),
        CollisionDetector.get_collision_info b1 b2 = some info →
        (info.side = CollisionSide.Left ∨ info.side = CollisionSide.Right) →
        overlapX b1.get_bounds b2.get_bounds < overlapY b1.get_bounds b2.get_bounds) ∧
    (∀ (phys : Physics) (p : Player) (plat : Platform),
        ¬ (overlapX (playerBounds p) plat.get_bounds <
            overlapY (playerBounds p) plat.get_bounds) →
        (phys.resolve_collision p plat).body.position.x = p.body.position.x ∧
        (phys.resolve_collision p plat).body.velocity.x = p.body.velocity.x) ∧
    (overlapX bodyA.get_bounds bodyB.get_bounds = 5 ∧
     overlapY bodyA.get_bounds bodyB.get_bounds = 5 ∧
     CollisionDetector.get_collision_info bodyA bodyB =
       some { side := CollisionSide.Bottom, overlap := 5,
              contact_point := Vec2.new 5 5 }) := by
  refine ⟨?_, ?_, ?_, ?_⟩
  · intro b1 b2 info h hno
    rw [get_collision_info_eq] at h
    by_cases hab : CollisionDetector.aabb_overlap b1.get_bounds b2.get_bounds
    · simp only [hab, if_true, reduceIte, Option.some.injEq] at h
      rcases h.symm with rfl
      simp [hno]
    · simp [hab] at h
  · intro b1 b2 info h hside
    by_cases hov : overlapX b1.get_bounds b2.get_bounds <
        overlapY b1.get_bounds b2.get_bounds
    · exact hov
    · exfalso
      rw [get_collision_info_eq] at h
      by_cases hab : CollisionDetector.aabb_overlap b1.get_bounds b2.get_bounds
      · simp only [hab, if_true, reduceIte, Option.some.injEq] at h
        rcases h.symm with rfl
        rcases hside with hside | hside <;>
          · simp only [hov, if_false, ite_false, reduceIte] at hside
            split_ifs at hside <;> simp_all
      · simp [hab] at h
  · intro phys p plat hno
    simp only [overlapX, overlapY, playerBounds, Platform.get_bounds,
      PhysicsBody.get_bounds, Player.position, Player.size] at hno
    simp only [Physics.resolve_collision, playerBounds, Platform.get_bounds,
      PhysicsBody.get_bounds, Player.position, Player.size, Player.velocity,
      Player.set_position, Player.set_velocity, Player.set_on_ground,
      Player.reset_jump]
    rw [if_neg hno]
    split_ifs <;> simp
  · refine ⟨?_, ?_, ?_⟩ <;>
      norm_num [overlapX, overlapY, bodyA, bodyB, PhysicsBody.new,
        PhysicsBody.get_bounds, Vec2.new, CollisionDetector.get_collision_info,
        CollisionDetector.aabb_overlap]

/-- C4 witness: the tie pair resolves vertically in both variants. -/
theorem C4_tie_break_witness :
    (CollisionInfo.mk CollisionSide.Bottom 5 (Vec2.new 5 5)).side =
      (if bodyA.position.y < bodyB.position.y then CollisionSide.Bottom
       else CollisionSide.Top) ∧
    (Physics.new.resolve_collision tiePlayer tiePlatform).body.position.x =
      tiePlayer.body.position.x := by
  constructor
  · exact C4_tie_break.1 bodyA bodyB _
      (by norm_num [bodyA, bodyB, PhysicsBody.new, PhysicsBody.get_bounds, Vec2.new,
        CollisionDetector.get_collision_info, CollisionDetector.aabb_overlap])
      (by norm_num [overlapX, overlapY, bodyA, bodyB, PhysicsBody.new,
        PhysicsBody.get_bounds, Vec2.new])
  · exact (C4_tie_break.2.2.1 Physics.new tiePlayer tiePlatform
      (by norm_num [overlapX, overlapY, tiePlayer, tiePlatform, bodyA, bodyB,
        Player.new, PhysicsBody.new, Platform.new, PhysicsBody.get_bounds,
        playerBounds, Platform.get_bounds, Player.position, Player.size,
        Vec2.new])).1

/-- C8: the detector's contact point is always the midpoint of the first
body's own bounds, position + size / 2; on the pair A = (0,0,10,10),
B = (5,5,15,15) it is (5, 5), which differs from the center (7.5, 7.5) of
the intersection rectangle of the two bounds. -/
theorem C8_contact_point :
    (∀ (b1 b2 : PhysicsBody) (info : CollisionInfo),
        CollisionDetector.get_collision_info b1 b2 = some info →
        info.contact_point =
          Vec2.new (b1.position.x + b1.size.x / 2)
            (b1.position.y + b1.size.y / 2)) ∧
    ((CollisionDetector.get_collision_info bodyA bodyB).map
        CollisionInfo.contact_point = some (Vec2.new 5 5) ∧
     Vec2.new
        ((max bodyA.position.x bodyB.position.x +
          min (bodyA.position.x + bodyA.size.x) (bodyB.position.x + bodyB.size.x)) / 2)
        ((max bodyA.position.y bodyB.position.y +
          min (bodyA.position.y + bodyA.size.y) (bodyB.position.y + bodyB.size.y)) / 2) =
       Vec2.new (15/2) (15/2) ∧
     Vec2.new (5 : ℚ) 5 ≠ Vec2.new (15/2 : ℚ) (15/2)) := by
  refine ⟨?_, ?_, ?_, ?_⟩
  · intro b1 b2 info h
    rw [get_collision_info_eq] at h
    by_cases hab : CollisionDetector.aabb_overlap b1.get_bounds b2.get_bounds
    · simp only [hab, if_true, reduceIte, Option.some.injEq] at h
      rcases h.symm with rfl
      rfl
    · simp [hab] at h
  · norm_num [bodyA, bodyB, PhysicsBody.new, PhysicsBody.get_bounds, Vec2.new,
      CollisionDetector.get_collision_info, CollisionDetector.aabb_overlap]
  · norm_num [bodyA, bodyB, PhysicsBody.new, Vec2.new]
  · simp [Vec2.new]
    norm_num

/-- C8 witness: the contact point of the tie pair is A's own midpoint. -/
theorem C8_contact_point_witness :
    (CollisionInfo.mk CollisionSide.Bottom 5 (Vec2.new 5 5)).contact_point =
      Vec2.new (bodyA.position.x + bodyA.size.x / 2)
        (bodyA.position.y + bodyA.size.y / 2) :=
  C8_contact_point.1 bodyA bodyB _
    (by norm_num [bodyA, bodyB, PhysicsBody.new, PhysicsBody.get_bounds, Vec2.new,
      CollisionDetector.get_collision_info, CollisionDetector.aabb_overlap])

/-- The CollisionInfo the detector returns for the falling body at (100, 95)
against the scenario platform: side Bottom (the inverted label), overlap 25. -/
def fallingInfo : CollisionInfo :=
  { side := CollisionSide.Bottom, overlap := 25, contact_point := Vec2.new 116 111 }

/-- C2 (counterexample): on the falling body at (100, 95) over the scenario
platform, the inline resolver lands the body on top (y = 68, velocity.y = 0,
on_ground = true) while get_collision_info + separate_bodies pushes it below
the platform (y = 120, velocity.y = 500, on_ground = false). -/
theorem C2_counterexample :
    CollisionDetector.get_collision_info fallingPlayer.body scenarioPlatform.body =
      some fallingInfo ∧
    (Physics.new.resolve_collision fallingPlayer scenarioPlatform).body.position.y = 68 ∧
    (Physics.new.resolve_collision fallingPlayer scenarioPlatform).body.velocity.y = 0 ∧
    (Physics.new.resolve_collision fallingPlayer scenarioPlatform).body.on_ground = true ∧
    (CollisionResolver.separate_bodies fallingPlayer.body scenarioPlatform.body
        fallingInfo).position.y = 120 ∧
    (CollisionResolver.separate_bodies fallingPlayer.body scenarioPlatform.body
        fallingInfo).velocity.y = 500 ∧
    (CollisionResolver.separate_bodies fallingPlayer.body scenarioPlatform.body
        fallingInfo).on_ground = false ∧
    (68 : ℚ) ≠ 120 := by
  norm_num [fallingInfo, fallingPlayer, scenarioPlatform,
    CollisionDetector.get_collision_info, CollisionDetector.aabb_overlap,
    CollisionResolver.separate_bodies, Physics.new, Physics.resolve_collision,
    Player.new, PhysicsBody.new, Platform.new, Platform.get_bounds,
    PhysicsBody.get_bounds, playerBounds, Player.set_position, Player.set_velocity,
    Player.set_on_ground, Player.reset_jump, Player.position, Player.velocity,
    Player.size, Vec2.new]

/-- C2 (amended): for every strictly overlapping player/platform pair with
positive sizes, the inline resolver and the detector+resolver pair pick the
same axis but opposite sides, so the resulting positions always differ. -/
theorem C2_divergence (phys : Physics) (p : Player) (plat : Platform)
    (info : CollisionInfo)
    (hw : 0 < p.body.size.x) (hh : 0 < p.body.size.y)
    (hW : 0 < plat.body.size.x) (hH : 0 < plat.body.size.y)
    (hinfo : CollisionDetector.get_collision_info p.body plat.body = some info) :
    (phys.resolve_collision p plat).body.position ≠
      (CollisionResolver.separate_bodies p.body plat.body info).position := by
  rw [get_collision_info_eq] at hinfo
  by_cases hab : CollisionDetector.aabb_overlap p.body.get_bounds plat.body.get_bounds
  · simp only [hab, if_true, reduceIte, Option.some.injEq] at hinfo
    rcases hinfo.symm with rfl
    by_cases hov : overlapX p.body.get_bounds plat.body.get_bounds <
        overlapY p.body.get_bounds plat.body.get_bounds
    · by_cases hx : p.body.position.x < plat.body.position.x
      · simp only [overlapX, overlapY, PhysicsBody.get_bounds] at hov
        simp only [Physics.resolve_collision, CollisionResolver.separate_bodies,
          playerBounds, Platform.get_bounds, PhysicsBody.get_bounds, Player.position,
          Player.size, Player.velocity, Player.set_position, Player.set_velocity,
          overlapX, overlapY, hov, hx, if_true, reduceIte]
        intro heq
        rw [Vec2.mk.injEq] at heq
        linarith [heq.1]
      · simp only [overlapX, overlapY, PhysicsBody.get_bounds] at hov
        simp only [Physics.resolve_collision, CollisionResolver.separate_bodies,
          playerBounds, Platform.get_bounds, PhysicsBody.get_bounds, Player.position,
          Player.size, Player.velocity, Player.set_position, Player.set_velocity,
          overlapX, overlapY, hov, hx, if_true, if_false, reduceIte]
        intro heq
        rw [Vec2.mk.injEq] at heq
        linarith [heq.1]
    · by_cases hy : p.body.position.y < plat.body.position.y
      · simp only [overlapX, overlapY, PhysicsBody.get_bounds] at hov
        simp only [Physics.resolve_collision, CollisionResolver.separate_bodies,
          playerBounds, Platform.get_bounds, PhysicsBody.get_bounds, Player.position,
          Player.size, Player.velocity, Player.set_position, Player.set_velocity,
          Player.set_on_ground, Player.reset_jump, overlapX, overlapY, hov, hy,
          if_true, if_false, reduceIte]
        intro heq
        rw [Vec2.mk.injEq] at heq
        linarith [heq.2]
      · simp only [overlapX, overlapY, PhysicsBody.get_bounds] at hov
        simp only [Physics.resolve_collision, CollisionResolver.separate_bodies,
          playerBounds, Platform.get_bounds, PhysicsBody.get_bounds, Player.position,
          Player.size, Player.velocity, Player.set_position, Player.set_velocity,
          overlapX, overlapY, hov, hy, if_true, if_false, reduceIte]
        intro heq
        rw [Vec2.mk.injEq] at heq
        linarith [heq.2]
  · simp [hab] at hinfo

/-- C2 witness: the two resolutions of the falling body at (100, 95) differ. -/
theorem C2_divergence_witness :
    (Physics.new.resolve_collision fallingPlayer scenarioPlatform).body.position ≠
      (CollisionResolver.separate_bodies fallingPlayer.body scenarioPlatform.body
        fallingInfo).position :=
  C2_divergence Physics.new fallingPlayer scenarioPlatform fallingInfo
    (by norm_num [fallingPlayer, Player.new, PhysicsBody.new, Player.set_velocity, Vec2.new])
    (by norm_num [fallingPlayer, Player.new, PhysicsBody.new, Player.set_velocity, Vec2.new])
    (by norm_num [scenarioPlatform, Platform.new, PhysicsBody.new, Vec2.new])
    (by norm_num [scenarioPlatform, Platform.new, PhysicsBody.new, Vec2.new])
    (by norm_num [fallingInfo, fallingPlayer, scenarioPlatform,
      CollisionDetector.get_collision_info, CollisionDetector.aabb_overlap,
      Player.new, PhysicsBody.new, Platform.new, PhysicsBody.get_bounds,
      Player.set_velocity, Vec2.new])

end Platformer
